import Mathlib

/-!
Shallow embedding of the realtime session manager of the Dnd-voice
repository (the `RealtimeClient` class of `src/lib/realtimeClient.ts`,
given as `src/unnamed/part_001`), together with proofs settling the
frozen claims about it.

Modelling conventions:
* The class fields become the fields of `ClientState`; nullable object
  references (`peerConnection`, `dataChannel`, `mediaStream`,
  `audioElement`, `audioContext`, `analyser`/`dataArray`,
  `animationFrame`) are modelled by presence booleans, since no claim
  depends on their contents, only on whether they are held and released.
* Every method becomes a pure function `ClientState → ClientState × List Action`
  (plus extra inputs where the source reads the outside world); the
  `Action` list records, in program order, the externally observable
  effects: data-channel sends, the five UI callbacks, and resource
  acquisition or release.
* A data-channel send records the response-in-flight fields
  (`currentResponseText`, `currentResponseId`, `isGeneratingResponse`)
  as they are at the moment of emission, and whether the channel was
  open (the source silently drops sends on a non-open channel); this is
  what lets ordering claims such as C4 be stated.
* `console.log` / `console.warn` / `console.error` calls are not
  modelled, except that an exception swallowed by a `catch` block is
  recorded as `Action.caughtException` so the control flow stays
  visible.
* Machine numbers: `temperature` and audio levels are rationals; the
  byte values of the analyser frequency array are naturals (a JS
  `Uint8Array` holds 0..255, but no bound is needed for the claims).
-/

namespace DndVoice

/-- Six ability scores of a character (`src/types.ts`). -/
structure Stats where
  strength : Int
  dexterity : Int
  constitution : Int
  intelligence : Int
  wisdom : Int
  charisma : Int
deriving DecidableEq, Repr

/-- A player character (`src/types.ts`); `class` is a reserved word in
Lean, so the field is `cls`. -/
structure Character where
  name : String
  cls : String
  race : String
  stats : Stats
deriving DecidableEq, Repr

/-- The `VoiceSettings` interface of `realtimeClient.ts`. -/
structure VoiceSettings where
  apiKey : String
  model : String
  voice : String
  temperature : ℚ
deriving DecidableEq, Repr

/-- The `DEFAULT_SETTINGS` constant. -/
def DEFAULT_SETTINGS : VoiceSettings :=
  { apiKey := ""
    model := "gpt-4o-mini-realtime-preview-2024-12-17"
    voice := "verse"
    temperature := (4 : ℚ) / 5 }

/-- A function-calling tool declaration. Only the structural fields the
claims depend on are kept; the two prose `description` strings of the
source constant are elided. -/
structure ToolDef where
  type : String
  name : String
  npcNameEnum : List String
deriving DecidableEq, Repr

/-- The `ROUTE_TO_NPC_FUNCTION` constant of `realtimeClient.ts`. -/
def ROUTE_TO_NPC_FUNCTION : ToolDef :=
  { type := "function"
    name := "route_to_npc"
    npcNameEnum := ["dm", "elara", "thorek", "grimjaw", "valdris", "malachar"] }

/-- The `session` object of a `session.update` event, as assembled by
`updateSessionInstructions` (lines 281-296 of the source). -/
structure SessionConfig where
  modalities : List String
  instructions : String
  temperature : ℚ
  tools : List ToolDef
  toolChoice : String
  inputAudioFormat : String
  outputAudioFormat : String
  transcriptionModel : String
  turnDetection : Option String
deriving DecidableEq, Repr

/-- A completed conversation turn delivered to the UI (`GameMessage` of
`src/types.ts`); the `Date` timestamp is elided, no claim mentions it. -/
structure GameMessage where
  type : String
  text : String
deriving DecidableEq, Repr

/-- The outbound events passed to `sendEvent`. -/
inductive OutEvent where
  | sessionUpdate (session : SessionConfig)
  | inputAudioBufferClear
  | inputAudioBufferCommit
  | responseCreate
  | responseCancel
  | conversationItemCreate (callId : String) (output : String)
deriving DecidableEq, Repr

/-- Snapshot of the response-in-flight fields of the client, recorded at
the moment a send is emitted. -/
structure InFlight where
  text : String
  rid : Option String
  generating : Bool
deriving DecidableEq, Repr

/-- The five UI callbacks of the `RealtimeClient` constructor.  The two
optional ones (`onAudioLevel`, `onNPCChange`) are modelled as always
registered, which is how `Voice.tsx` constructs the client. -/
inductive Callback where
  | onMessage (m : GameMessage)
  | onTranscript (text : String)
  | onError (message : String)
  | onAudioLevel (level : ℚ)
  | onNPCChange (npcName : String)
deriving DecidableEq, Repr

/-- Externally observable effects, in program order. -/
inductive Action where
  | send (ev : OutEvent) (snap : InFlight) (delivered : Bool)
  | cb (c : Callback)
  | fetchToken
  | createPeerConnection
  | createAudioElement
  | getUserMedia
  | addTrack
  | createAudioContext
  | createDataChannel
  | fetchSdp
  | closePeerConnection
  | closeDataChannel
  | closeAudioContext
  | stopMediaTracks
  | removeAudioElement
  | resumeAudioContext
  | pausePlayback
  | playPlayback
  | cancelAnimation
  | caughtException
deriving DecidableEq, Repr

/-- The mutable fields of the `RealtimeClient` class (lines 41-60). -/
structure ClientState where
  hasPeerConnection : Bool
  hasDataChannel : Bool
  dataChannelOpen : Bool
  hasAudioElement : Bool
  playbackPaused : Bool
  hasMediaStream : Bool
  micTrackEnabled : Bool
  hasAudioContext : Bool
  audioContextSuspended : Bool
  hasAnalyser : Bool
  monitoring : Bool
  isConnected : Bool
  isListening : Bool
  currentResponseId : Option String
  currentResponseText : String
  isGeneratingResponse : Bool
  currentActiveNPC : String
  conversationHistory : List (String × String)
deriving DecidableEq, Repr

/-- The field initialisers of the class: every reference null, every
flag false, `currentActiveNPC = 'dm'`, empty history. -/
def initialState : ClientState :=
  { hasPeerConnection := false
    hasDataChannel := false
    dataChannelOpen := false
    hasAudioElement := false
    playbackPaused := false
    hasMediaStream := false
    micTrackEnabled := false
    hasAudioContext := false
    audioContextSuspended := false
    hasAnalyser := false
    monitoring := false
    isConnected := false
    isListening := false
    currentResponseId := none
    currentResponseText := ""
    isGeneratingResponse := false
    currentActiveNPC := "dm"
    conversationHistory := [] }

/-- Whether `pat` occurs as a contiguous run inside `l`. -/
def listInfix (pat : List Char) : List Char → Bool
  | [] => pat.isPrefixOf ([] : List Char)
  | c :: rest => pat.isPrefixOf (c :: rest) || listInfix pat rest

/-- JS `String.prototype.includes`: substring containment. -/
def strContains (s pat : String) : Bool :=
  listInfix pat.data s.data

/-- JS `str.replace(musicNoteRegexGlobal, emptyString)`: the transcript
handlers strip every music-note character before trimming. -/
def removeMusicNotes (s : String) : String :=
  ⟨s.data.filter (fun c => c ≠ '🎵')⟩

/-- JS `String.prototype.trim`: drop leading and trailing whitespace.
(`String.trim` of the Lean core library is extensionally the same on
the ASCII whitespace relevant here, but is defined through
fuel-free `Substring` recursion that the kernel cannot evaluate, so the
model uses a structurally recursive definition.) -/
def jsTrim (s : String) : String :=
  ⟨((s.data.dropWhile Char.isWhitespace).reverse.dropWhile Char.isWhitespace).reverse⟩

/-- The in-flight snapshot of a state. -/
def ClientState.inFlight (s : ClientState) : InFlight :=
  { text := s.currentResponseText
    rid := s.currentResponseId
    generating := s.isGeneratingResponse }

/-- `sendEvent` (lines 592-598): serialises and sends when the data
channel is open, otherwise logs a warning and drops the event.  Both
outcomes are recorded as a `send` action whose `delivered` flag is the
channel state, and which carries the in-flight snapshot at emission. -/
def sendEvent (s : ClientState) (ev : OutEvent) : List Action :=
  [Action.send ev s.inFlight s.dataChannelOpen]

/-- The character block interpolated into every persona instruction
(lines 232-235). -/
def characterContext (c : Option Character) : String :=
  match c with
  | some ch =>
      "Character: " ++ ch.name ++ ", a " ++ ch.race ++ " " ++ ch.cls ++
      " Stats: STR " ++ toString ch.stats.strength ++
      ", DEX " ++ toString ch.stats.dexterity ++
      ", CON " ++ toString ch.stats.constitution ++
      ", INT " ++ toString ch.stats.intelligence ++
      ", WIS " ++ toString ch.stats.wisdom ++
      ", CHA " ++ toString ch.stats.charisma
  | none => ""

/-- The per-persona instruction template selected by the `switch` of
`updateSessionInstructions` (lines 239-275).  The fixed roleplay prose
of each branch plays no role in any claim and is abbreviated to a
stable per-branch marker; the structure (which branch fires, where the
character context is interpolated, the default branch for unknown
names) is kept. -/
def personaTemplate (npcType : String) (ctx : String) : String :=
  if npcType = "elara" then "TEMPLATE_ELARA " ++ ctx
  else if npcType = "thorek" then "TEMPLATE_THOREK " ++ ctx
  else if npcType = "grimjaw" then "TEMPLATE_GRIMJAW " ++ ctx
  else if npcType = "valdris" then "TEMPLATE_VALDRIS " ++ ctx
  else if npcType = "malachar" then "TEMPLATE_MALACHAR " ++ ctx
  else "TEMPLATE_DM " ++ ctx

/-- The routing appendix added to every non-narrator persona
(lines 277-280), abbreviated like the templates. -/
def routingAppendix : String := " ROUTING_BACK_TO_DM"

/-- `updateSessionInstructions` (lines 228-300): when the data channel
is open, assembles the full session configuration for the given persona
and sends it as a `session.update`; otherwise returns without sending.
The `route_to_npc` tool and the `auto` tool choice are attached exactly
when the persona is the narrator `dm`. -/
def updateSessionInstructions (settings : VoiceSettings) (character : Option Character)
    (npcType : String) (s : ClientState) : ClientState × List Action :=
  if s.hasDataChannel ∧ s.dataChannelOpen then
    let instructions0 := personaTemplate npcType (characterContext character)
    let instructions :=
      if npcType ≠ "dm" then instructions0 ++ routingAppendix else instructions0
    let session : SessionConfig :=
      { modalities := ["text", "audio"]
        instructions := instructions
        temperature := settings.temperature
        tools := if npcType = "dm" then [ROUTE_TO_NPC_FUNCTION] else []
        toolChoice := if npcType = "dm" then "auto" else "none"
        inputAudioFormat := "pcm16"
        outputAudioFormat := "pcm16"
        transcriptionModel := "whisper-1"
        turnDetection := none }
    (s, sendEvent s (OutEvent.sessionUpdate session))
  else (s, [])

/-- `initializeSession` (lines 218-226): on an open data channel, reset
the active persona to the narrator, notify the UI, and push the
narrator session configuration. -/
def initializeSession (settings : VoiceSettings) (character : Option Character)
    (s : ClientState) : ClientState × List Action :=
  if s.hasDataChannel ∧ s.dataChannelOpen then
    let s1 := { s with currentActiveNPC := "dm" }
    let r := updateSessionInstructions settings character "dm" s1
    (r.1, Action.cb (Callback.onNPCChange "dm") :: r.2)
  else (s, [])

/-- The average-amplitude computation of `updateLevel` (lines 330-334):
mean of the frequency byte array, divided by 128 and clamped to 1.
An empty array gives NaN in JS; the analyser array always has
`fftSize / 2 = 128` entries, and in this model the rational division
by zero yields 0. -/
def computeLevel (bytes : List ℕ) : ℚ :=
  let average : ℚ := ((bytes.map (fun b : ℕ => (b : ℚ))).sum) / (bytes.length : ℚ)
  min (average / 128) 1

/-- One invocation of the `updateLevel` closure of
`startAudioLevelMonitoring` (lines 324-341): while not listening (or
with the analyser gone) it reports level 0 and does not re-arm the
animation frame; while listening it reports the measured level and
re-arms.  `bytes` is the frequency data the analyser would deliver. -/
def updateLevel (s : ClientState) (bytes : List ℕ) : ClientState × List Action :=
  if ¬s.hasAnalyser ∨ ¬s.isListening then
    (s, [Action.cb (Callback.onAudioLevel 0)])
  else
    ({ s with monitoring := true },
      [Action.cb (Callback.onAudioLevel (computeLevel bytes))])

/-- `startAudioLevelMonitoring` (lines 321-344): requires the analyser
(and its data array, created together with it) to be present, then runs
the first `updateLevel` synchronously. -/
def startAudioLevelMonitoring (s : ClientState) (bytes : List ℕ) :
    ClientState × List Action :=
  if s.hasAnalyser then updateLevel s bytes else (s, [])

/-- `stopAudioLevelMonitoring` (lines 346-354): cancel the pending
animation frame if any, then report level 0. -/
def stopAudioLevelMonitoring (s : ClientState) : ClientState × List Action :=
  let r :=
    if s.monitoring then ({ s with monitoring := false }, [Action.cancelAnimation])
    else (s, [])
  (r.1, r.2 ++ [Action.cb (Callback.onAudioLevel 0)])

/-- `cancelResponse` (lines 636-653): when a response is being
generated, send `response.cancel`, then clear the generating flag, the
accumulated text and the response id, then report audio level 0. -/
def cancelResponse (s : ClientState) : ClientState × List Action :=
  if s.isGeneratingResponse then
    let a1 := sendEvent s OutEvent.responseCancel
    let s1 := { s with
      isGeneratingResponse := false
      currentResponseText := ""
      currentResponseId := none }
    (s1, a1 ++ [Action.cb (Callback.onAudioLevel 0)])
  else (s, [])

/-- `startListening` (lines 600-634).  Returns the source boolean
result together with the new state and the effect trace: guarded by
connected, not listening, and the media stream being held; resumes a
suspended audio context, cancels any in-flight response, pauses and
rewinds playback, enables the microphone track, sets the listening
flag, sends `input_audio_buffer.clear`, and starts level monitoring. -/
def startListening (s : ClientState) (bytes : List ℕ) :
    Bool × ClientState × List Action :=
  if s.isConnected ∧ ¬s.isListening ∧ s.hasMediaStream then
    let r0 :=
      if s.hasAudioContext ∧ s.audioContextSuspended then
        ({ s with audioContextSuspended := false }, [Action.resumeAudioContext])
      else (s, [])
    let r1 := cancelResponse r0.1
    let r2 :=
      if r1.1.hasAudioElement then
        ({ r1.1 with playbackPaused := true }, [Action.pausePlayback])
      else (r1.1, [])
    let s3 := { r2.1 with micTrackEnabled := true, isListening := true }
    let a3 := sendEvent s3 OutEvent.inputAudioBufferClear
    let r4 := startAudioLevelMonitoring s3 bytes
    (true, r4.1, r0.2 ++ r1.2 ++ r2.2 ++ a3 ++ r4.2)
  else (false, s, [])

/-- `stopListening` (lines 655-683): guarded by connected, listening,
and the media stream being held; cancels any in-flight response, pauses
playback, stops level monitoring, disables the microphone track, clears
the listening flag, then commits the audio buffer and requests a
response. -/
def stopListening (s : ClientState) : ClientState × List Action :=
  if s.isConnected ∧ s.isListening ∧ s.hasMediaStream then
    let r1 := cancelResponse s
    let r2 :=
      if r1.1.hasAudioElement then
        ({ r1.1 with playbackPaused := true }, [Action.pausePlayback])
      else (r1.1, [])
    let r3 := stopAudioLevelMonitoring r2.1
    let s4 := { r3.1 with micTrackEnabled := false, isListening := false }
    let a4 := sendEvent s4 OutEvent.inputAudioBufferCommit
    let a5 := sendEvent s4 OutEvent.responseCreate
    (s4, r1.2 ++ r2.2 ++ r3.2 ++ a4 ++ a5)
  else (s, [])

/-- `disconnect` (lines 685-719): stop level monitoring, close the
audio context, the data channel and the peer connection, stop the media
tracks, remove the playback element, and clear the connected, listening
and generating flags.  The active persona, the response id, the
accumulated text and the conversation history are not touched. -/
def disconnect (s : ClientState) : ClientState × List Action :=
  let r1 := stopAudioLevelMonitoring s
  let r2 :=
    if r1.1.hasAudioContext then
      ({ r1.1 with hasAudioContext := false, hasAnalyser := false }, [Action.closeAudioContext])
    else (r1.1, [])
  let r3 :=
    if r2.1.hasDataChannel then
      ({ r2.1 with hasDataChannel := false, dataChannelOpen := false }, [Action.closeDataChannel])
    else (r2.1, [])
  let r4 :=
    if r3.1.hasPeerConnection then
      ({ r3.1 with hasPeerConnection := false }, [Action.closePeerConnection])
    else (r3.1, [])
  let r5 :=
    if r4.1.hasMediaStream then
      ({ r4.1 with hasMediaStream := false, micTrackEnabled := false }, [Action.stopMediaTracks])
    else (r4.1, [])
  let r6 :=
    if r5.1.hasAudioElement then
      ({ r5.1 with hasAudioElement := false, playbackPaused := false }, [Action.removeAudioElement])
    else (r5.1, [])
  let s7 := { r6.1 with
    isConnected := false
    isListening := false
    isGeneratingResponse := false }
  (s7, r1.2 ++ r2.2 ++ r3.2 ++ r4.2 ++ r5.2 ++ r6.2)

/-- `getVoiceForNPC` (lines 580-590). -/
def getVoiceForNPC (settings : VoiceSettings) (npcType : String) : String :=
  if npcType = "thorek" then "echo"
  else if npcType = "elara" then "shimmer"
  else if npcType = "grimjaw" then "echo"
  else if npcType = "valdris" then "verse"
  else if npcType = "malachar" then "echo"
  else settings.voice

/-- `getConnectionState` (lines 721-727). -/
def getConnectionState (s : ClientState) : Bool × Bool × Bool :=
  (s.isConnected, s.isListening, s.isGeneratingResponse)

/-- The outside-world results consumed by one `connect()` run: the
ephemeral-token exchange, the payload check, microphone acquisition,
audio-analysis setup, and the SDP signaling exchange. -/
structure ConnectEnv where
  tokenOk : Bool
  tokenStatus : ℕ
  tokenErrorText : String
  clientSecret : Option String
  micOk : Bool
  analysisOk : Bool
  sdpOk : Bool

/-- Whether `data.client_secret?.value` is present and truthy
(line 107: an absent or empty secret throws `Invalid session
response`). -/
def secretPresent (env : ConnectEnv) : Bool :=
  match env.clientSecret with
  | some v => v ≠ ""
  | none => false

/-- `connect` (lines 75-216).  An empty API key reports an error and
returns.  Otherwise: exchange the token (a non-ok response throws and
is reported by the outer catch), check the secret, create the peer
connection and the playback element, acquire the microphone (denial
reports an error and returns, leaving the just-created resources in
place), set up audio analysis (its own failures are swallowed), create
the data channel, and run the SDP exchange (a failure throws and is
reported).  Note that no branch closes, stops or removes anything the
state already holds: a prior connection is simply overwritten. -/
def connect (settings : VoiceSettings) (env : ConnectEnv) (s : ClientState) :
    ClientState × List Action :=
  if settings.apiKey = "" then
    (s, [Action.cb (Callback.onError "OpenAI API key required for voice interaction")])
  else if ¬env.tokenOk then
    (s, [Action.fetchToken,
      Action.cb (Callback.onError
        ("OpenAI API error: " ++ toString env.tokenStatus ++ " - " ++ env.tokenErrorText))])
  else if ¬secretPresent env then
    (s, [Action.fetchToken, Action.cb (Callback.onError "Invalid session response")])
  else
    let s1 := { s with hasPeerConnection := true }
    let s2 := { s1 with hasAudioElement := true, playbackPaused := true }
    let acts0 := [Action.fetchToken, Action.createPeerConnection, Action.createAudioElement,
      Action.getUserMedia]
    if ¬env.micOk then
      (s2, acts0 ++
        [Action.cb (Callback.onError "Microphone access required for voice interaction")])
    else
      let s3 := { s2 with hasMediaStream := true, micTrackEnabled := false }
      let r4 :=
        if env.analysisOk then
          ({ s3 with
              hasAudioContext := true
              audioContextSuspended := true
              hasAnalyser := true }, [Action.createAudioContext])
        else (s3, [Action.caughtException])
      let s5 := { r4.1 with hasDataChannel := true, dataChannelOpen := false }
      if ¬env.sdpOk then
        (s5, acts0 ++ [Action.addTrack] ++ r4.2 ++ [Action.createDataChannel, Action.fetchSdp,
          Action.cb (Callback.onError "Failed to establish WebRTC connection")])
      else
        (s5, acts0 ++ [Action.addTrack] ++ r4.2 ++ [Action.createDataChannel, Action.fetchSdp])

/-- The `open` listener of the data channel (lines 167-173): mark the
channel open and the client connected, reset the listening and
generating flags, and run `initializeSession`. -/
def channelOpen (settings : VoiceSettings) (character : Option Character)
    (s : ClientState) : ClientState × List Action :=
  if s.hasDataChannel then
    let s1 := { s with
      dataChannelOpen := true
      isConnected := true
      isListening := false
      isGeneratingResponse := false }
    initializeSession settings character s1
  else (s, [])

/-- One element of a `conversation.item.created` content array. -/
structure ContentPart where
  type : String
  transcript : Option String
deriving DecidableEq, Repr

/-- The `item` of a `conversation.item.created` event. -/
structure ItemData where
  type : String
  role : String
  content : List ContentPart
deriving DecidableEq, Repr

/-- Result of `JSON.parse(output.arguments)` followed by the
`args.npc_name` projection: `malformed` when the parse throws,
otherwise the optional `npc_name` string. -/
inductive FnArgs where
  | malformed
  | parsed (npcName : Option String)
deriving DecidableEq, Repr

/-- One element of the `response.output` array of a `response.done`
event. -/
structure OutputItem where
  type : String
  name : String
  callId : String
  args : FnArgs
deriving DecidableEq, Repr

/-- The inbound data-channel events the handler dispatches on, already
past the parse-and-validate layer (lines 355-377: non-string payloads,
JSON parse failures and messages without a string `type` are discarded
before the dispatch). -/
inductive InEvent where
  | speechStarted
  | speechStopped
  | transcriptionCompleted (transcript : Option String)
  | conversationItemCreated (item : Option ItemData)
  | responseCreated (responseId : Option String)
  | audioTranscriptDelta (delta : Option String)
  | audioTranscriptDone
  | responseDone (output : List OutputItem)
  | errorEvent (message : Option String)
  | unknownEvent (t : String)
deriving DecidableEq, Repr

/-- `data.error?.message || 'Unknown API error'` (line 519): an absent
or empty message falls back to the fixed text. -/
def effectiveErrorMessage (message : Option String) : String :=
  match message with
  | some m => if m = "" then "Unknown API error" else m
  | none => "Unknown API error"

/-- The benign-cancellation pattern matched on line 523. -/
def benignCancellationPattern : String :=
  "Cancellation failed: no active response found"

/-- The per-item body of the `response.done` function-call scan
(lines 495-513).  For a `function_call` item named `route_to_npc` the
source parses the arguments inside a `try`; a parse failure is caught
and logged.  With a truthy `npc_name` different from the active
persona the source then invokes `this.switchNPCInSession(npcName,
output.call_id)` — but the class defines no member of that name (the
defined method is `switchToNPCInSession`, line 544, which nothing
calls).  Under `tsc` this is a type error; in the transpiled
JavaScript actually shipped the call raises `TypeError:
this.switchNPCInSession is not a function`, which the same per-item
`catch` swallows.  Either way the item changes no state and emits
nothing, which is what this definition returns; the swallowed
exception is recorded as `caughtException`. -/
def scanOutputItem (s : ClientState) (item : OutputItem) : List Action :=
  if item.type = "function_call" ∧ item.name = "route_to_npc" then
    match item.args with
    | FnArgs.malformed => [Action.caughtException]
    | FnArgs.parsed npcName =>
        match npcName with
        | some n =>
            if n ≠ "" ∧ n ≠ s.currentActiveNPC then [Action.caughtException]
            else []
        | none => []
  else []

/-- The `for` loop over `data.response.output` (line 495).  Since every
iteration leaves the state untouched (see `scanOutputItem`), the scan
returns the state it was given and the per-item effects in order. -/
def scanOutputs (s : ClientState) (items : List OutputItem) : ClientState × List Action :=
  (s, items.foldl (fun acc item => acc ++ scanOutputItem s item) [])

/-- `handleDataChannelMessage` (lines 355-542), one validated event. -/
def handleDataChannelMessage (s : ClientState) (ev : InEvent) : ClientState × List Action :=
  match ev with
  | InEvent.speechStarted => (s, [])
  | InEvent.speechStopped => (s, [])
  | InEvent.transcriptionCompleted transcript =>
      match transcript with
      | some str =>
          if jsTrim str ≠ "" then
            let cleaned := jsTrim (removeMusicNotes str)
            if cleaned ≠ "" then
              ({ s with conversationHistory :=
                  s.conversationHistory ++ [("user", cleaned)] },
                [Action.cb (Callback.onTranscript cleaned)])
            else (s, [])
          else (s, [])
      | none => (s, [])
  | InEvent.conversationItemCreated itemOpt =>
      match itemOpt with
      | some item =>
          if item.type = "message" ∧ item.role = "user" then
            match item.content.head? with
            | some content =>
                match content.transcript with
                | some t =>
                    if content.type = "input_audio" ∧ t ≠ "" then
                      let cleaned := jsTrim (removeMusicNotes t)
                      if cleaned ≠ "" then
                        ({ s with conversationHistory :=
                            s.conversationHistory ++ [("user", cleaned)] },
                          [Action.cb (Callback.onTranscript cleaned)])
                      else (s, [])
                    else (s, [])
                | none => (s, [])
            | none => (s, [])
          else (s, [])
      | none => (s, [])
  | InEvent.responseCreated responseId =>
      let s1 := { s with
        currentResponseId :=
          match responseId with
          | some r => if r = "" then none else some r
          | none => none
        currentResponseText := ""
        isGeneratingResponse := true }
      let a1 := [Action.cb (Callback.onAudioLevel ((7 : ℚ) / 10))]
      if s1.hasAudioElement ∧ s1.playbackPaused then
        ({ s1 with playbackPaused := false }, a1 ++ [Action.playPlayback])
      else (s1, a1)
  | InEvent.audioTranscriptDelta delta =>
      match delta with
      | some str =>
          ({ s with currentResponseText := s.currentResponseText ++ str }, [])
      | none => (s, [])
  | InEvent.audioTranscriptDone =>
      let r1 :=
        if jsTrim s.currentResponseText ≠ "" then
          ({ s with conversationHistory :=
              s.conversationHistory ++ [("assistant", jsTrim s.currentResponseText)] },
            [Action.cb (Callback.onMessage
              { type := s.currentActiveNPC, text := jsTrim s.currentResponseText })])
        else (s, [])
      let s2 := { r1.1 with
        currentResponseText := ""
        currentResponseId := none
        isGeneratingResponse := false }
      (s2, r1.2 ++ [Action.cb (Callback.onAudioLevel 0)])
  | InEvent.responseDone output =>
      let s1 := { s with isGeneratingResponse := false }
      let r := scanOutputs s1 output
      (r.1, [Action.cb (Callback.onAudioLevel 0)] ++ r.2)
  | InEvent.errorEvent message =>
      let errorMessage := effectiveErrorMessage message
      if strContains errorMessage benignCancellationPattern then (s, [])
      else (s, [Action.cb (Callback.onError errorMessage)])
  | InEvent.unknownEvent _ => (s, [])

/-- `switchToNPCInSession` (lines 544-579), the method the
`response.done` scan was meant to call (nothing calls it, see
`scanOutputItem`): set the active persona and notify the UI, send the
function-call acknowledgment (the source serialises a JSON success
object with a `Now speaking as` message; the payload string is
abbreviated here), push the new persona session configuration, and —
after a 100 ms `setTimeout`, modelled as the last action of the
cooperative run — request a response from the new persona. -/
def switchToNPCInSession (settings : VoiceSettings) (character : Option Character)
    (npcName callId : String) (s : ClientState) : ClientState × List Action :=
  let s1 := { s with currentActiveNPC := npcName }
  let a1 := [Action.cb (Callback.onNPCChange npcName)]
  let a2 := sendEvent s1 (OutEvent.conversationItemCreate callId
    ("SUCCESS_PAYLOAD npc=" ++ npcName))
  let r3 := updateSessionInstructions settings character npcName s1
  let a4 := sendEvent r3.1 OutEvent.responseCreate
  (r3.1, a1 ++ a2 ++ r3.2 ++ a4)

/-- One transition of the session manager: any public operation the UI
can invoke, the data-channel open listener, one inbound event, or one
animation-frame tick of the level monitor. -/
inductive Step (settings : VoiceSettings) (character : Option Character) :
    ClientState → ClientState → Prop where
  | connectStep (env : ConnectEnv) (s : ClientState) :
      Step settings character s (connect settings env s).1
  | channelOpenStep (s : ClientState) :
      Step settings character s (channelOpen settings character s).1
  | messageStep (ev : InEvent) (s : ClientState) :
      Step settings character s (handleDataChannelMessage s ev).1
  | startListeningStep (bytes : List ℕ) (s : ClientState) :
      Step settings character s (startListening s bytes).2.1
  | stopListeningStep (s : ClientState) :
      Step settings character s (stopListening s).1
  | updateInstructionsStep (npc : String) (s : ClientState) :
      Step settings character s (updateSessionInstructions settings character npc s).1
  | disconnectStep (s : ClientState) :
      Step settings character s (disconnect s).1
  | levelTickStep (bytes : List ℕ) (s : ClientState) :
      Step settings character s (updateLevel s bytes).1

/-- States reachable from a freshly constructed client. -/
def Reachable (settings : VoiceSettings) (character : Option Character)
    (s : ClientState) : Prop :=
  Relation.ReflTransGen (Step settings character) initialState s

/-- The audio levels delivered through `onAudioLevel` by a trace, in
order. -/
def levelsOf (tr : List Action) : List ℚ :=
  tr.filterMap (fun a =>
    match a with
    | Action.cb (Callback.onAudioLevel q) => some q
    | _ => none)

/-- The messages delivered through `onError` by a trace, in order. -/
def errorsOf (tr : List Action) : List String :=
  tr.filterMap (fun a =>
    match a with
    | Action.cb (Callback.onError m) => some m
    | _ => none)

/-- The persona names delivered through `onNPCChange` by a trace. -/
def npcChangesOf (tr : List Action) : List String :=
  tr.filterMap (fun a =>
    match a with
    | Action.cb (Callback.onNPCChange n) => some n
    | _ => none)

/-- The turns delivered through `onMessage` by a trace. -/
def messagesOf (tr : List Action) : List GameMessage :=
  tr.filterMap (fun a =>
    match a with
    | Action.cb (Callback.onMessage m) => some m
    | _ => none)

/-- The outbound events handed to `sendEvent` by a trace, in order
(delivered or dropped). -/
def sentEventsOf (tr : List Action) : List OutEvent :=
  tr.filterMap (fun a =>
    match a with
    | Action.send ev _ _ => some ev
    | _ => none)

/-- A `function_call` output item requesting a route to `npc`. -/
def routeCallItem (npc callId : String) : OutputItem :=
  { type := "function_call"
    name := "route_to_npc"
    callId := callId
    args := FnArgs.parsed (some npc) }

/-- Settings with a non-empty API key, used by concrete runs. -/
def testSettings : VoiceSettings :=
  { DEFAULT_SETTINGS with apiKey := "sk-test-key" }

/-- A fully successful environment for one `connect()` run. -/
def happyEnv : ConnectEnv :=
  { tokenOk := true
    tokenStatus := 200
    tokenErrorText := ""
    clientSecret := some "ephemeral-secret"
    micOk := true
    analysisOk := true
    sdpOk := true }

/-- A concrete connected narrator-persona state in the middle of a
streamed response, used by several concrete runs. -/
def dmConnectedState : ClientState :=
  { initialState with
    hasPeerConnection := true
    hasDataChannel := true
    dataChannelOpen := true
    hasAudioElement := true
    hasMediaStream := true
    hasAudioContext := true
    hasAnalyser := true
    isConnected := true
    isGeneratingResponse := true
    currentResponseId := some "resp_1"
    currentResponseText := "Elara smiles" }

/-- A concrete prior-session state whose per-conversation fields are
dirty, used to test `disconnect`. -/
def dirtyState : ClientState :=
  { dmConnectedState with
    currentActiveNPC := "elara"
    currentResponseText := "Elara smiles warmly."
    monitoring := true }

/-- The state of a freshly constructed client after a successful
`connect()` run. -/
def connectedStateA : ClientState :=
  (connect testSettings happyEnv initialState).1

/-- `connectedStateA` after the data-channel `open` listener ran. -/
def connectedStateB : ClientState :=
  (channelOpen testSettings none connectedStateA).1

/-- `connectedStateB` after a `response.created` event: a reachable
connected state with a response in flight. -/
def connectedStateC : ClientState :=
  (handleDataChannelMessage connectedStateB (InEvent.responseCreated (some "resp_1"))).1

/-- `connectedStateC` after one transcript delta. -/
def connectedStateD : ClientState :=
  (handleDataChannelMessage connectedStateC
    (InEvent.audioTranscriptDelta (some "Elara smiles"))).1

/-- Resource invariant of reachable states: a client that holds a data
channel, and a client marked connected, acquired the microphone stream
(the source creates the data channel only after `getUserMedia`
succeeded, and only the channel-open listener sets the connected
flag). -/
def GoodState (s : ClientState) : Prop :=
  (s.hasDataChannel = true → s.hasMediaStream = true) ∧
  (s.isConnected = true → s.hasMediaStream = true)

/- ------------------------------------------------------------------
Auxiliary lemmas
------------------------------------------------------------------ -/

theorem updateSessionInstructions_fst (settings : VoiceSettings)
    (character : Option Character) (npcType : String) (s : ClientState) :
    (updateSessionInstructions settings character npcType s).1 = s := by
  unfold updateSessionInstructions
  split <;> rfl

theorem initializeSession_fst (settings : VoiceSettings)
    (character : Option Character) (s : ClientState) :
    (initializeSession settings character s).1 =
      (if s.hasDataChannel ∧ s.dataChannelOpen then
        { s with currentActiveNPC := "dm" } else s) := by
  by_cases h : s.hasDataChannel ∧ s.dataChannelOpen <;>
    simp [initializeSession, updateSessionInstructions_fst, h]

/-- The data-channel event handler never touches the connection
resources nor the active persona. -/
theorem handleDataChannelMessage_preserves (s : ClientState) (ev : InEvent) :
    (handleDataChannelMessage s ev).1.hasMediaStream = s.hasMediaStream ∧
    (handleDataChannelMessage s ev).1.hasDataChannel = s.hasDataChannel ∧
    (handleDataChannelMessage s ev).1.isConnected = s.isConnected ∧
    (handleDataChannelMessage s ev).1.currentActiveNPC = s.currentActiveNPC := by
  refine ⟨?_, ?_, ?_, ?_⟩ <;>
    cases ev <;>
    simp only [handleDataChannelMessage, scanOutputs] <;>
    (repeat' split) <;>
    rfl

theorem startListening_preserves (s : ClientState) (bytes : List ℕ) :
    (startListening s bytes).2.1.hasMediaStream = s.hasMediaStream ∧
    (startListening s bytes).2.1.hasDataChannel = s.hasDataChannel ∧
    (startListening s bytes).2.1.isConnected = s.isConnected ∧
    (startListening s bytes).2.1.currentActiveNPC = s.currentActiveNPC := by
  obtain ⟨pc, dc, dco, ae, pp, ms, mte, ac, acs, an, mon, con, lis, rid, txt, gen, npc, hist⟩ := s
  cases con <;> cases lis <;> cases ms <;> cases ac <;> cases acs <;> cases ae <;>
    cases an <;> cases gen <;>
    exact ⟨rfl, rfl, rfl, rfl⟩

theorem stopListening_preserves (s : ClientState) :
    (stopListening s).1.hasMediaStream = s.hasMediaStream ∧
    (stopListening s).1.hasDataChannel = s.hasDataChannel ∧
    (stopListening s).1.isConnected = s.isConnected ∧
    (stopListening s).1.currentActiveNPC = s.currentActiveNPC := by
  obtain ⟨pc, dc, dco, ae, pp, ms, mte, ac, acs, an, mon, con, lis, rid, txt, gen, npc, hist⟩ := s
  cases con <;> cases lis <;> cases ms <;> cases ae <;> cases gen <;> cases mon <;>
    exact ⟨rfl, rfl, rfl, rfl⟩

theorem updateLevel_preserves (s : ClientState) (bytes : List ℕ) :
    (updateLevel s bytes).1.hasMediaStream = s.hasMediaStream ∧
    (updateLevel s bytes).1.hasDataChannel = s.hasDataChannel ∧
    (updateLevel s bytes).1.isConnected = s.isConnected ∧
    (updateLevel s bytes).1.currentActiveNPC = s.currentActiveNPC := by
  refine ⟨?_, ?_, ?_, ?_⟩ <;>
    simp only [updateLevel] <;>
    (repeat' split) <;>
    rfl

theorem disconnect_fst_fields (s : ClientState) :
    (disconnect s).1.hasMediaStream = false ∧
    (disconnect s).1.hasDataChannel = false ∧
    (disconnect s).1.isConnected = false ∧
    (disconnect s).1.currentActiveNPC = s.currentActiveNPC := by
  obtain ⟨pc, dc, dco, ae, pp, ms, mte, ac, acs, an, mon, con, lis, rid, txt, gen, npc, hist⟩ := s
  cases mon <;> cases ac <;> cases dc <;> cases pc <;> cases ms <;> cases ae <;>
    exact ⟨rfl, rfl, rfl, rfl⟩

theorem connect_persona (settings : VoiceSettings) (env : ConnectEnv)
    (s : ClientState) :
    (connect settings env s).1.currentActiveNPC = s.currentActiveNPC := by
  simp only [connect]
  (repeat' split) <;> rfl

theorem connect_isConnected (settings : VoiceSettings) (env : ConnectEnv)
    (s : ClientState) :
    (connect settings env s).1.isConnected = s.isConnected := by
  simp only [connect]
  (repeat' split) <;> rfl

/-- Every `connect` run either leaves the channel and stream fields as
they were, or ends holding the microphone stream. -/
theorem connect_stream_cases (settings : VoiceSettings) (env : ConnectEnv)
    (s : ClientState) :
    ((connect settings env s).1.hasDataChannel = s.hasDataChannel ∧
      (connect settings env s).1.hasMediaStream = s.hasMediaStream) ∨
    (connect settings env s).1.hasMediaStream = true := by
  simp only [connect]
  (repeat' split) <;>
    first
      | exact Or.inl ⟨rfl, rfl⟩
      | exact Or.inr rfl

theorem channelOpen_fst (settings : VoiceSettings) (character : Option Character)
    (s : ClientState) :
    (channelOpen settings character s).1 =
      (if s.hasDataChannel = true then
        { s with
          dataChannelOpen := true
          isConnected := true
          isListening := false
          isGeneratingResponse := false
          currentActiveNPC := "dm" }
      else s) := by
  by_cases h : s.hasDataChannel = true <;>
    simp [channelOpen, initializeSession_fst, h]

theorem goodState_step (settings : VoiceSettings) (character : Option Character)
    (a b : ClientState) (hg : GoodState a) (hs : Step settings character a b) :
    GoodState b := by
  obtain ⟨h1, h2⟩ := hg
  cases hs with
  | connectStep env =>
      rcases connect_stream_cases settings env a with ⟨f1, f2⟩ | f
      · constructor <;> intro h
        · rw [f2]; exact h1 (by rw [← f1, h])
        · rw [f2]; exact h2 (by rw [← connect_isConnected settings env a, h])
      · exact ⟨fun _ => f, fun _ => f⟩
  | channelOpenStep =>
      rw [channelOpen_fst]
      split <;> rename_i hdc
      · exact ⟨fun _ => h1 hdc, fun _ => h1 hdc⟩
      · exact ⟨h1, h2⟩
  | messageStep ev =>
      obtain ⟨f1, f2, f3, _⟩ := handleDataChannelMessage_preserves a ev
      exact ⟨fun h => by rw [f1]; exact h1 (by rw [← f2, h]),
        fun h => by rw [f1]; exact h2 (by rw [← f3, h])⟩
  | startListeningStep bytes =>
      obtain ⟨f1, f2, f3, _⟩ := startListening_preserves a bytes
      exact ⟨fun h => by rw [f1]; exact h1 (by rw [← f2, h]),
        fun h => by rw [f1]; exact h2 (by rw [← f3, h])⟩
  | stopListeningStep =>
      obtain ⟨f1, f2, f3, _⟩ := stopListening_preserves a
      exact ⟨fun h => by rw [f1]; exact h1 (by rw [← f2, h]),
        fun h => by rw [f1]; exact h2 (by rw [← f3, h])⟩
  | updateInstructionsStep npc =>
      rw [updateSessionInstructions_fst]
      exact ⟨h1, h2⟩
  | disconnectStep =>
      obtain ⟨f1, f2, f3, _⟩ := disconnect_fst_fields a
      exact ⟨fun h => (by rw [f2] at h; cases h), fun h => (by rw [f3] at h; cases h)⟩
  | levelTickStep bytes =>
      obtain ⟨f1, f2, f3, _⟩ := updateLevel_preserves a bytes
      exact ⟨fun h => by rw [f1]; exact h1 (by rw [← f2, h]),
        fun h => by rw [f1]; exact h2 (by rw [← f3, h])⟩

/-- Every reachable client state satisfies the resource invariant. -/
theorem reachable_good (settings : VoiceSettings) (character : Option Character)
    (s : ClientState) (h : Reachable settings character s) : GoodState s := by
  induction h with
  | refl =>
      exact ⟨fun h => by simp [initialState] at h, fun h => by simp [initialState] at h⟩
  | tail hab hbc ih => exact goodState_step settings character _ _ ih hbc

theorem persona_step (settings : VoiceSettings) (character : Option Character)
    (a b : ClientState) (hp : a.currentActiveNPC = "dm")
    (hs : Step settings character a b) : b.currentActiveNPC = "dm" := by
  cases hs with
  | connectStep env => rw [connect_persona]; exact hp
  | channelOpenStep =>
      rw [channelOpen_fst]
      split <;> simp_all
  | messageStep ev =>
      rw [(handleDataChannelMessage_preserves a ev).2.2.2]; exact hp
  | startListeningStep bytes =>
      rw [(startListening_preserves a bytes).2.2.2]; exact hp
  | stopListeningStep =>
      rw [(stopListening_preserves a).2.2.2]; exact hp
  | updateInstructionsStep npc =>
      rw [updateSessionInstructions_fst]; exact hp
  | disconnectStep =>
      rw [(disconnect_fst_fields a).2.2.2]; exact hp
  | levelTickStep bytes =>
      rw [(updateLevel_preserves a bytes).2.2.2]; exact hp

/-- In every reachable state the active persona is the narrator: the
only write of a different persona sits in `switchToNPCInSession`, which
no reachable code path invokes (see `scanOutputItem`). -/
theorem reachable_persona_dm (settings : VoiceSettings) (character : Option Character)
    (s : ClientState) (h : Reachable settings character s) :
    s.currentActiveNPC = "dm" := by
  induction h with
  | refl => rfl
  | tail hab hbc ih => exact persona_step settings character _ _ ih hbc

/- ------------------------------------------------------------------
Claim theorems
------------------------------------------------------------------ -/

/-- C1 (code bug): when a `response.done` event carries a
`function_call` named `route_to_npc` whose `npc_name` is a valid
persona (`elara`) different from the active persona (`dm`), the claimed
sequence — acknowledgment send, persona-change callback,
`session.update` push, `response.create` — does not happen at all: the
handler invokes the non-existent member `switchNPCInSession` (the
defined method is `switchToNPCInSession`), the resulting TypeError is
swallowed by the per-item catch, and the scan leaves the persona
unchanged, sends nothing, and invokes no persona-change callback. -/
theorem C1_provider_routing_is_dead_code :
    (handleDataChannelMessage dmConnectedState
        (InEvent.responseDone [routeCallItem "elara" "call_1"])).1.currentActiveNPC = "dm" ∧
    sentEventsOf (handleDataChannelMessage dmConnectedState
        (InEvent.responseDone [routeCallItem "elara" "call_1"])).2 = [] ∧
    npcChangesOf (handleDataChannelMessage dmConnectedState
        (InEvent.responseDone [routeCallItem "elara" "call_1"])).2 = [] ∧
    Action.caughtException ∈ (handleDataChannelMessage dmConnectedState
        (InEvent.responseDone [routeCallItem "elara" "call_1"])).2 := by
  decide

/-- C3: the `session.update` pushed by `updateSessionInstructions`
over an open data channel carries the `route_to_npc` tool declaration
if and only if the persona is the narrator `dm`; for every other
persona the tool list is empty. -/
theorem C3_route_tool_only_for_narrator (settings : VoiceSettings)
    (character : Option Character) (npcType : String) (s : ClientState)
    (hch : s.hasDataChannel = true) (hop : s.dataChannelOpen = true) :
    ∃ session : SessionConfig,
      (updateSessionInstructions settings character npcType s).2 =
        [Action.send (OutEvent.sessionUpdate session) s.inFlight true] ∧
      ((ROUTE_TO_NPC_FUNCTION ∈ session.tools) ↔ npcType = "dm") ∧
      (npcType ≠ "dm" → session.tools = []) := by
  unfold updateSessionInstructions
  rw [if_pos ⟨hch, hop⟩]
  simp only [sendEvent, hop]
  refine ⟨_, rfl, ?_, ?_⟩
  · by_cases h : npcType = "dm" <;> simp [h]
  · intro h
    simp [h]

/-- C3 witness: the concrete session-update for `elara` over an open
channel. -/
theorem C3_witness :
    ∃ session : SessionConfig,
      (updateSessionInstructions testSettings none "elara" dmConnectedState).2 =
        [Action.send (OutEvent.sessionUpdate session) dmConnectedState.inFlight true] ∧
      ((ROUTE_TO_NPC_FUNCTION ∈ session.tools) ↔ ("elara" : String) = "dm") ∧
      (("elara" : String) ≠ "dm" → session.tools = []) :=
  C3_route_tool_only_for_narrator testSettings none "elara" dmConnectedState rfl rfl

/-- C8: a `route_to_npc` function call whose `npc_name` equals the
active persona falls through the guard `npcName !== currentActiveNPC`:
the handler only clears the generating flag and reports audio level 0 —
no persona-change callback, no send of any kind, persona unchanged. -/
theorem C8_same_persona_call_is_noop (s : ClientState) (callId : String) :
    handleDataChannelMessage s
        (InEvent.responseDone [routeCallItem s.currentActiveNPC callId]) =
      ({ s with isGeneratingResponse := false },
        [Action.cb (Callback.onAudioLevel 0)]) := by
  simp [handleDataChannelMessage, scanOutputs, routeCallItem, scanOutputItem]

/-- C9 counterexample: an inbound `error` event whose `message` field
is the empty string is not suppressed, and the single `onError`
invocation carries the fallback text `Unknown API error`, not the
event message — the claim says the callback carries the event message. -/
theorem C9_counterexample :
    errorsOf (handleDataChannelMessage initialState
        (InEvent.errorEvent (some ""))).2 = ["Unknown API error"] ∧
    ("Unknown API error" : String) ≠ "" := by
  decide

/-- C9 amended: an inbound `error` event whose effective message — the
event message when present and non-empty, else the fallback
`Unknown API error` — contains the pattern
`Cancellation failed: no active response found` produces no `onError`
invocation; any other `error` event produces exactly one `onError`
invocation carrying that effective message. -/
theorem C9_error_event_filtering (s : ClientState) (message : Option String) :
    (strContains (effectiveErrorMessage message) benignCancellationPattern = true →
      handleDataChannelMessage s (InEvent.errorEvent message) = (s, [])) ∧
    (strContains (effectiveErrorMessage message) benignCancellationPattern = false →
      handleDataChannelMessage s (InEvent.errorEvent message) =
        (s, [Action.cb (Callback.onError (effectiveErrorMessage message))])) := by
  constructor <;> intro h <;> simp [handleDataChannelMessage, h]

/-- C9 witness: the benign cancellation message is swallowed, and an
ordinary message is surfaced exactly once. -/
theorem C9_witness :
    handleDataChannelMessage initialState
        (InEvent.errorEvent (some "Cancellation failed: no active response found")) =
      (initialState, []) ∧
    handleDataChannelMessage initialState (InEvent.errorEvent (some "boom")) =
      (initialState, [Action.cb (Callback.onError "boom")]) :=
  ⟨(C9_error_event_filtering initialState
      (some "Cancellation failed: no active response found")).1 (by decide),
   (C9_error_event_filtering initialState (some "boom")).2 (by decide)⟩

/-- C10: a `response.audio_transcript.done` received while the
accumulated text trims to the empty string emits no turn and appends
nothing to the conversation history (both visible in the result: the
trace holds only the level-0 report and the history field is carried
over unchanged), yet still clears the accumulated text, resets the
response id and drops the generating flag. -/
theorem C10_blank_transcript_clears_state (s : ClientState)
    (h : jsTrim s.currentResponseText = "") :
    handleDataChannelMessage s InEvent.audioTranscriptDone =
      ({ s with
          currentResponseText := ""
          currentResponseId := none
          isGeneratingResponse := false },
        [Action.cb (Callback.onAudioLevel 0)]) := by
  simp [handleDataChannelMessage, h]

/-- C10 witness: a whitespace-only accumulated response. -/
theorem C10_witness :
    handleDataChannelMessage
        { dmConnectedState with currentResponseText := "   " }
        InEvent.audioTranscriptDone =
      ({ dmConnectedState with
          currentResponseText := ""
          currentResponseId := none
          isGeneratingResponse := false },
        [Action.cb (Callback.onAudioLevel 0)]) :=
  C10_blank_transcript_clears_state
    { dmConnectedState with currentResponseText := "   " } (by decide)

/-- C5 counterexample: running `connect()` from a state that already
holds a peer connection (and channel, stream, playback element)
creates the new transport without a single teardown action — the prior
connection is never disconnected. -/
theorem C5_counterexample :
    dmConnectedState.hasPeerConnection = true ∧
    Action.createPeerConnection ∈ (connect testSettings happyEnv dmConnectedState).2 ∧
    Action.closePeerConnection ∉ (connect testSettings happyEnv dmConnectedState).2 ∧
    Action.closeDataChannel ∉ (connect testSettings happyEnv dmConnectedState).2 ∧
    Action.stopMediaTracks ∉ (connect testSettings happyEnv dmConnectedState).2 ∧
    Action.removeAudioElement ∉ (connect testSettings happyEnv dmConnectedState).2 := by
  decide

/-- C5 amended: `connect()` performs no teardown whatsoever — in no
environment and from no prior state does it close the peer connection
or data channel, stop media tracks, remove the playback element, or
close the audio context; a prior connection is simply overwritten, and
teardown happens only in `disconnect()`. -/
theorem C5_connect_never_tears_down (settings : VoiceSettings)
    (env : ConnectEnv) (s : ClientState) :
    Action.closePeerConnection ∉ (connect settings env s).2 ∧
    Action.closeDataChannel ∉ (connect settings env s).2 ∧
    Action.stopMediaTracks ∉ (connect settings env s).2 ∧
    Action.removeAudioElement ∉ (connect settings env s).2 ∧
    Action.closeAudioContext ∉ (connect settings env s).2 := by
  simp only [connect]
  (repeat' split) <;> simp

/-- C6 counterexample: after `disconnect()` from a state whose persona
is `elara` with a response id and accumulated text still set, those
three fields are unchanged — not reset to narrator, `null` and empty
as claimed. -/
theorem C6_counterexample :
    (disconnect dirtyState).1.currentActiveNPC = "elara" ∧
    ("elara" : String) ≠ "dm" ∧
    (disconnect dirtyState).1.currentResponseText = "Elara smiles warmly." ∧
    ("Elara smiles warmly." : String) ≠ "" ∧
    (disconnect dirtyState).1.currentResponseId = some "resp_1" := by
  decide

/-- C6 amended: `disconnect()` clears the connected, listening and
generating flags and releases every held resource (peer connection,
data channel, media tracks, audio context, playback element, pending
animation frame — each close action appears exactly when the resource
was held), but leaves the active persona, the accumulated response
text, the response id and the conversation history untouched; the
persona is reset to the narrator only by the next session
initialisation. -/
theorem C6_disconnect_resets_flags_not_conversation (s : ClientState) :
    (disconnect s).1.isConnected = false ∧
    (disconnect s).1.isListening = false ∧
    (disconnect s).1.isGeneratingResponse = false ∧
    (disconnect s).1.hasPeerConnection = false ∧
    (disconnect s).1.hasDataChannel = false ∧
    (disconnect s).1.hasMediaStream = false ∧
    (disconnect s).1.hasAudioContext = false ∧
    (disconnect s).1.hasAudioElement = false ∧
    (disconnect s).1.monitoring = false ∧
    (disconnect s).1.currentActiveNPC = s.currentActiveNPC ∧
    (disconnect s).1.currentResponseText = s.currentResponseText ∧
    (disconnect s).1.currentResponseId = s.currentResponseId ∧
    (disconnect s).1.conversationHistory = s.conversationHistory ∧
    ((Action.closePeerConnection ∈ (disconnect s).2) ↔ s.hasPeerConnection = true) ∧
    ((Action.closeDataChannel ∈ (disconnect s).2) ↔ s.hasDataChannel = true) ∧
    ((Action.stopMediaTracks ∈ (disconnect s).2) ↔ s.hasMediaStream = true) ∧
    ((Action.removeAudioElement ∈ (disconnect s).2) ↔ s.hasAudioElement = true) ∧
    ((Action.closeAudioContext ∈ (disconnect s).2) ↔ s.hasAudioContext = true) := by
  obtain ⟨pc, dc, dco, ae, pp, ms, mte, ac, acs, an, mon, con, lis, rid, txt, gen, npc, hist⟩ := s
  cases mon <;> cases ac <;> cases dc <;> cases pc <;> cases ms <;> cases ae <;>
    simp [disconnect, stopAudioLevelMonitoring]

theorem computeLevel_bounds (bytes : List ℕ) :
    0 ≤ computeLevel bytes ∧ computeLevel bytes ≤ 1 := by
  have hs : 0 ≤ (bytes.map (fun b : ℕ => (b : ℚ))).sum :=
    List.sum_nonneg (fun x hx => by
      obtain ⟨b, hb, hxb⟩ := List.mem_map.mp hx
      rw [← hxb]
      show (0 : ℚ) ≤ (b : ℚ)
      exact Nat.cast_nonneg b)
  have hl : (0 : ℚ) ≤ (bytes.length : ℚ) := Nat.cast_nonneg _
  have h1 : 0 ≤ (bytes.map (fun b : ℕ => (b : ℚ))).sum / (bytes.length : ℚ) / 128 :=
    div_nonneg (div_nonneg hs hl) (by norm_num)
  refine ⟨?_, ?_⟩
  · show 0 ≤ min ((bytes.map (fun b : ℕ => (b : ℚ))).sum / (bytes.length : ℚ) / 128) 1
    exact le_min h1 (by norm_num)
  · show min ((bytes.map (fun b : ℕ => (b : ℚ))).sum / (bytes.length : ℚ) / 128) 1 ≤ 1
    exact min_le_right _ _

theorem levelsOf_append (t1 t2 : List Action) :
    levelsOf (t1 ++ t2) = levelsOf t1 ++ levelsOf t2 := by
  simp [levelsOf]

theorem scanOutputItem_levels (s : ClientState) (item : OutputItem) :
    levelsOf (scanOutputItem s item) = [] := by
  unfold scanOutputItem
  (repeat' split) <;> rfl

theorem scanOutputs_levels (s : ClientState) (items : List OutputItem) :
    levelsOf (scanOutputs s items).2 = [] := by
  unfold scanOutputs
  suffices h : ∀ acc : List Action,
      levelsOf (items.foldl (fun a it => a ++ scanOutputItem s it) acc) = levelsOf acc by
    exact h []
  induction items with
  | nil => intro acc; rfl
  | cons it rest ih =>
      intro acc
      simp only [List.foldl_cons]
      rw [ih, levelsOf_append, scanOutputItem_levels]
      simp

/-- The event handler only ever reports the constant levels 0 and 0.7;
0.7 only from `response.created`. -/
theorem handle_levels (s : ClientState) (ev : InEvent) :
    ∀ q ∈ levelsOf (handleDataChannelMessage s ev).2,
      q = 0 ∨ (q = 7 / 10 ∧ ∃ rid, ev = InEvent.responseCreated rid) := by
  intro q hq
  cases ev with
  | responseDone output =>
      simp only [handleDataChannelMessage, levelsOf_append,
        scanOutputs_levels, List.append_nil] at hq
      simp [levelsOf] at hq
      exact Or.inl hq
  | responseCreated rid =>
      simp only [handleDataChannelMessage] at hq
      split at hq <;> simp_all [levelsOf]
  | _ =>
      refine Or.inl ?_
      simp only [handleDataChannelMessage] at hq
      (repeat' split at hq) <;> simp_all [levelsOf]

theorem cancelResponse_levels (s : ClientState) :
    ∀ q ∈ levelsOf (cancelResponse s).2, q = 0 := by
  intro q hq
  unfold cancelResponse at hq
  split at hq <;> simp_all [levelsOf, sendEvent]

theorem updateLevel_levels (s : ClientState) (bytes : List ℕ) :
    ∀ q ∈ levelsOf (updateLevel s bytes).2, 0 ≤ q ∧ q ≤ 1 := by
  intro q hq
  unfold updateLevel at hq
  split at hq
  · simp [levelsOf] at hq
    subst hq
    constructor <;> norm_num
  · simp [levelsOf] at hq
    subst hq
    exact computeLevel_bounds bytes

theorem stopAudioLevelMonitoring_levels (s : ClientState) :
    ∀ q ∈ levelsOf (stopAudioLevelMonitoring s).2, q = 0 := by
  intro q hq
  unfold stopAudioLevelMonitoring at hq
  split at hq <;> simp_all [levelsOf]

theorem startListening_levels (s : ClientState) (bytes : List ℕ) :
    ∀ q ∈ levelsOf (startListening s bytes).2.2, 0 ≤ q ∧ q ≤ 1 := by
  intro q hq
  obtain ⟨pc, dc, dco, ae, pp, ms, mte, ac, acs, an, mon, con, lis, rid, txt, gen, npc, hist⟩ := s
  cases con <;> cases lis <;> cases ms <;> cases ac <;> cases acs <;> cases ae <;>
    cases an <;> cases gen <;>
    simp [startListening, cancelResponse, sendEvent, startAudioLevelMonitoring,
      updateLevel, levelsOf] at hq <;>
    rcases hq with rfl | rfl <;>
    first
      | (exact computeLevel_bounds bytes)
      | (constructor <;> norm_num)

theorem stopListening_levels (s : ClientState) :
    ∀ q ∈ levelsOf (stopListening s).2, 0 ≤ q ∧ q ≤ 1 := by
  intro q hq
  obtain ⟨pc, dc, dco, ae, pp, ms, mte, ac, acs, an, mon, con, lis, rid, txt, gen, npc, hist⟩ := s
  cases con <;> cases lis <;> cases ms <;> cases ae <;> cases gen <;> cases mon <;>
    simp [stopListening, cancelResponse, sendEvent, stopAudioLevelMonitoring,
      levelsOf] at hq <;>
    rcases hq with rfl <;>
    constructor <;> norm_num

theorem disconnect_levels (s : ClientState) :
    ∀ q ∈ levelsOf (disconnect s).2, 0 ≤ q ∧ q ≤ 1 := by
  intro q hq
  obtain ⟨pc, dc, dco, ae, pp, ms, mte, ac, acs, an, mon, con, lis, rid, txt, gen, npc, hist⟩ := s
  cases mon <;> cases ac <;> cases dc <;> cases pc <;> cases ms <;> cases ae <;>
    simp [disconnect, stopAudioLevelMonitoring, levelsOf] at hq <;>
    rcases hq with rfl <;>
    constructor <;> norm_num

/-- C7 counterexample: while not listening, a `response.created` event
drives the audio-level callback with the fixed value 0.7, not 0. -/
theorem C7_counterexample :
    dmConnectedState.isListening = false ∧
    Action.cb (Callback.onAudioLevel (7 / 10)) ∈
      (handleDataChannelMessage dmConnectedState
        (InEvent.responseCreated (some "resp_2"))).2 ∧
    ((7 : ℚ) / 10) ≠ 0 := by
  refine ⟨rfl, ?_, by norm_num⟩
  simp [handleDataChannelMessage, dmConnectedState, initialState]

/-- C7 amended: every value the client delivers through the
audio-level callback — from the event handler, the per-frame level
monitor, and the listening, stopping and disconnect paths — lies in
[0, 1]; while not listening the monitor only ever reports 0, and the
event handler reports 0 except for the fixed 0.7 speaking indicator
that `response.created` emits regardless of the listening state. -/
theorem C7_audio_levels :
    (∀ s ev q, q ∈ levelsOf (handleDataChannelMessage s ev).2 → 0 ≤ q ∧ q ≤ 1) ∧
    (∀ s bytes q, q ∈ levelsOf (updateLevel s bytes).2 → 0 ≤ q ∧ q ≤ 1) ∧
    (∀ s bytes q, q ∈ levelsOf (startListening s bytes).2.2 → 0 ≤ q ∧ q ≤ 1) ∧
    (∀ s q, q ∈ levelsOf (stopListening s).2 → 0 ≤ q ∧ q ≤ 1) ∧
    (∀ s q, q ∈ levelsOf (disconnect s).2 → 0 ≤ q ∧ q ≤ 1) ∧
    (∀ s bytes, s.isListening = false → levelsOf (updateLevel s bytes).2 = [0]) ∧
    (∀ s ev q, s.isListening = false →
      q ∈ levelsOf (handleDataChannelMessage s ev).2 →
      q = 0 ∨ (q = 7 / 10 ∧ ∃ rid, ev = InEvent.responseCreated rid)) := by
  refine ⟨?_, ?_, startListening_levels, stopListening_levels, disconnect_levels, ?_, ?_⟩
  · intro s ev q hq
    rcases handle_levels s ev q hq with h | ⟨h, _⟩ <;> subst h <;>
      constructor <;> norm_num
  · intro s bytes q hq
    exact updateLevel_levels s bytes q hq
  · intro s bytes hlis
    simp [updateLevel, hlis, levelsOf]
  · intro s ev q _ hq
    exact handle_levels s ev q hq

/-- C7 witness: the 0.7 speaking indicator is within bounds and is the
`response.created` exception of the disarmed case. -/
theorem C7_witness :
    (0 ≤ (7 : ℚ) / 10 ∧ (7 : ℚ) / 10 ≤ 1) ∧
    ((7 : ℚ) / 10 = 0 ∨ ((7 : ℚ) / 10 = 7 / 10 ∧
      ∃ rid, InEvent.responseCreated (some "resp_2") = InEvent.responseCreated rid)) :=
  ⟨C7_audio_levels.1 dmConnectedState
      (InEvent.responseCreated (some "resp_2")) (7 / 10)
      (by simp [handleDataChannelMessage, dmConnectedState, initialState, levelsOf]),
   C7_audio_levels.2.2.2.2.2.2 dmConnectedState
      (InEvent.responseCreated (some "resp_2")) (7 / 10) rfl
      (by simp [handleDataChannelMessage, dmConnectedState, initialState, levelsOf])⟩

/-- C4: starting to listen while connected, not listening, and with a
response in flight emits, in this order, a `response.cancel` send
whose snapshot still carries the in-flight text, id and generating
flag, and — strictly later — the `input_audio_buffer.clear` send,
whose snapshot shows the in-flight state already cleared (empty text,
no id, generating flag down).  Reachability supplies the fact that a
connected client holds the microphone stream, which the `startListening`
guard also requires. -/
theorem C4_cancel_before_buffer_clear (settings : VoiceSettings)
    (character : Option Character) (s : ClientState) (bytes : List ℕ)
    (hr : Reachable settings character s)
    (hc : s.isConnected = true) (hl : s.isListening = false)
    (hg : s.isGeneratingResponse = true) :
    ∃ i j : ℕ, i < j ∧
      (startListening s bytes).2.2[i]? =
        some (Action.send OutEvent.responseCancel
          { text := s.currentResponseText, rid := s.currentResponseId,
            generating := true } s.dataChannelOpen) ∧
      (startListening s bytes).2.2[j]? =
        some (Action.send OutEvent.inputAudioBufferClear
          { text := "", rid := none, generating := false } s.dataChannelOpen) := by
  have hms : s.hasMediaStream = true := (reachable_good settings character s hr).2 hc
  clear hr
  obtain ⟨pc, dc, dco, ae, pp, ms, mte, ac, acs, an, mon, con, lis, rid, txt, gen, npc, hist⟩ := s
  cases con <;> cases lis <;> cases ms <;> cases gen <;>
    (try (exact Bool.noConfusion hc)) <;>
    (try (exact Bool.noConfusion hl)) <;>
    (try (exact Bool.noConfusion hg)) <;>
    (try (exact Bool.noConfusion hms)) <;>
    cases ac <;> cases acs <;> cases ae <;> cases an <;>
      first
        | exact ⟨0, 2, by decide, rfl, rfl⟩
        | exact ⟨0, 3, by decide, rfl, rfl⟩
        | exact ⟨1, 3, by decide, rfl, rfl⟩
        | exact ⟨1, 4, by decide, rfl, rfl⟩

/-- C4 witness: a reachable connected mid-response state (connect,
channel open, `response.created`). -/
theorem C4_witness :
    ∃ i j : ℕ, i < j ∧
      (startListening connectedStateC [100]).2.2[i]? =
        some (Action.send OutEvent.responseCancel
          { text := connectedStateC.currentResponseText,
            rid := connectedStateC.currentResponseId,
            generating := true } connectedStateC.dataChannelOpen) ∧
      (startListening connectedStateC [100]).2.2[j]? =
        some (Action.send OutEvent.inputAudioBufferClear
          { text := "", rid := none, generating := false }
          connectedStateC.dataChannelOpen) :=
  C4_cancel_before_buffer_clear testSettings none connectedStateC [100]
    (Relation.ReflTransGen.tail
      (Relation.ReflTransGen.tail
        (Relation.ReflTransGen.tail Relation.ReflTransGen.refl
          (Step.connectStep happyEnv initialState))
        (Step.channelOpenStep connectedStateA))
      (Step.messageStep (InEvent.responseCreated (some "resp_1")) connectedStateB))
    rfl rfl rfl

/-- C2: in every reachable run, a turn emitted at
`response.audio_transcript.done` is labeled with the persona that was
active when the corresponding `response.created` was received — no
sequence of intervening operations or events can change the label,
because the persona field is constant (`dm`) on all reachable states:
the only provider-initiated switch path is dead code (see C1/
`scanOutputItem`) and the completion handler reads the same constant
field. -/
theorem C2_turn_label_is_persona_at_response_start (settings : VoiceSettings)
    (character : Option Character) (s0 : ClientState)
    (h0 : Reachable settings character s0) (responseId : Option String)
    (s2 : ClientState)
    (h2 : Relation.ReflTransGen (Step settings character)
      (handleDataChannelMessage s0 (InEvent.responseCreated responseId)).1 s2)
    (m : GameMessage)
    (hm : Action.cb (Callback.onMessage m) ∈
      (handleDataChannelMessage s2 InEvent.audioTranscriptDone).2) :
    m.type = s0.currentActiveNPC := by
  have hp0 : s0.currentActiveNPC = "dm" := reachable_persona_dm settings character s0 h0
  have h1 : Reachable settings character
      (handleDataChannelMessage s0 (InEvent.responseCreated responseId)).1 :=
    Relation.ReflTransGen.tail h0
      (Step.messageStep (InEvent.responseCreated responseId) s0)
  have hp2 : s2.currentActiveNPC = "dm" :=
    reachable_persona_dm settings character s2 (Relation.ReflTransGen.trans h1 h2)
  rw [hp0]
  by_cases ht : jsTrim s2.currentResponseText = ""
  · simp [handleDataChannelMessage, ht] at hm
  · simp [handleDataChannelMessage, ht] at hm
    rw [hm, ← hp2]

/-- C2 witness: the concrete run connect → channel open →
`response.created` → one delta → `response.audio_transcript.done`
emits the narrator-labeled turn. -/
theorem C2_witness :
    ({ type := "dm", text := "Elara smiles" } : GameMessage).type =
      connectedStateB.currentActiveNPC :=
  C2_turn_label_is_persona_at_response_start testSettings none connectedStateB
    (Relation.ReflTransGen.tail
      (Relation.ReflTransGen.tail Relation.ReflTransGen.refl
        (Step.connectStep happyEnv initialState))
      (Step.channelOpenStep connectedStateA))
    (some "resp_1") connectedStateD
    (Relation.ReflTransGen.tail Relation.ReflTransGen.refl
      (Step.messageStep (InEvent.audioTranscriptDelta (some "Elara smiles"))
        connectedStateC))
    { type := "dm", text := "Elara smiles" }
    (by decide)

end DndVoice
